import Mathlib

/-!
The DiscoveryService script wrapper of vertx-service-discovery-js

A shallow embedding of discovery_service.js.  The file is generated glue: every
method checks the shape of its argument list, forwards to the Java delegate
(j_discoveryService) with converted arguments and a callback, and the callback
turns the async result delivered by the delegate into one call of the result
handler supplied by the script.

Modelling conventions.
* A call of a wrapper method is a function from the argument list (the script
  arguments object) to an Outcome: what was thrown, which delegate methods were
  invoked (with their arguments and the callback that was registered), and the
  value returned.
* Everything the script manipulates is a JsVal.  Java objects seen from the
  script are host values; a Java null is the script null.
* JSON.stringify and the functions of vertx-js/util/utils are not part of this
  repository; they are fields of a Host parameter.  The Java constructors
  new JsonObject(text) and new Record(json) are constructors of JavaObj and are
  taken to return normally.
-/

namespace DiscoveryService

/-! ## Values -/

/-- Java objects visible from the script (never null). -/
inductive JavaObj where
  | jsonObject (text : String)
  | record (json : JavaObj)
  | list (items : List JavaObj)
  | throwable (message : String)
  | other (id : Nat)

/-- Script values. -/
inductive JsVal where
  | undefined
  | null
  | bool (b : Bool)
  | number (n : Int)
  | string (s : String)
  | object (fields : List (String × JsVal))
  | array (items : List JsVal)
  | function (id : Nat)
  | host (obj : JavaObj)

/-- The typeof operator. -/
def typeof : JsVal → String
  | .undefined => "undefined"
  | .null => "object"
  | .bool _ => "boolean"
  | .number _ => "number"
  | .string _ => "string"
  | .object _ => "object"
  | .array _ => "object"
  | .function _ => "function"
  | .host _ => "object"

/-- The test v != null (loose inequality: false exactly for null and undefined). -/
def looseNeNull : JsVal → Bool
  | .undefined => false
  | .null => false
  | _ => true

/-- Strict test for the script null. -/
def JsVal.isNull : JsVal → Bool
  | .null => true
  | _ => false

/-- ToBoolean, as applied by if and by the && operator. -/
def truthy : JsVal → Bool
  | .undefined => false
  | .null => false
  | .bool b => b
  | .number n => n != 0
  | .string s => s != ""
  | .object _ => true
  | .array _ => true
  | .function _ => true
  | .host _ => true

/-- Errors a wrapper call can raise. -/
inductive JsError where
  | typeError (message : String)
  | propertyOfNull (name : String)
  deriving DecidableEq, Repr

/-- The error thrown by every wrapper method on a rejected argument list. -/
def invalidArguments : JsError :=
  .typeError "function invoked with invalid arguments"

/-- Element i of the arguments object; undefined past the end. -/
def arg (args : List JsVal) (i : Nat) : JsVal :=
  args.getD i .undefined

/-- Property read v.name: throws on null and undefined, undefined when absent. -/
def getProp (v : JsVal) (name : String) : Except JsError JsVal :=
  match v with
  | .undefined => .error (.propertyOfNull name)
  | .null => .error (.propertyOfNull name)
  | .object fields => .ok ((fields.lookup name).getD .undefined)
  | _ => .ok .undefined

/-! ## The bridge -/

/-- The async result handed to a callback by the delegate. -/
structure AsyncResult where
  succeeded : Bool
  result : JsVal
  cause : JsVal

/-- One invocation resultHandler(result, error). -/
structure HandlerCall where
  handler : JsVal
  result : JsVal
  error : JsVal

/-- One invocation of a method of the Java delegate. -/
structure DelegateCall where
  method : String
  args : List JsVal
  callback : Option (AsyncResult → List HandlerCall)

/-- What a wrapper call did. -/
structure Outcome where
  thrown : Option JsError
  calls : List DelegateCall
  returned : JsVal

/-- Functions the wrapper uses that live outside this repository. -/
structure Host where
  stringify : JsVal → String
  convParamJsonObject : JsVal → JsVal
  convReturnDataObject : JsVal → JsVal
  convReturnListSetDataObject : JsVal → JsVal
  convReturnVertxGen : JsVal → JsVal
  javaGetServiceReference : JsVal → JsVal → JsVal

/-- The throw statement. -/
def Outcome.throw (e : JsError) : Outcome :=
  { thrown := some e, calls := [], returned := .undefined }

/-- The expression new Record(new JsonObject(JSON.stringify(record))). -/
def newRecord (H : Host) (record : JsVal) : JsVal :=
  .host (.record (.jsonObject (H.stringify record)))

/-- The expression record != null ? new Record(...) : null. -/
def recordParam (H : Host) (record : JsVal) : JsVal :=
  if looseNeNull record then newRecord H record else .null

/-- The guard shared by publish, update, getRecord and getRecords. -/
def objectHandlerGuard (args : List JsVal) : Bool :=
  args.length == 2 && (typeof (arg args 0) == "object" && looseNeNull (arg args 0))
    && typeof (arg args 1) == "function"

/-- The guard of unpublish. -/
def stringHandlerGuard (args : List JsVal) : Bool :=
  args.length == 2 && typeof (arg args 0) == "string" && typeof (arg args 1) == "function"

/-- The callback of publish, update and getRecord. -/
def dataObjectCallback (H : Host) (resultHandler : JsVal) (ar : AsyncResult) : List HandlerCall :=
  if ar.succeeded then
    [{ handler := resultHandler, result := H.convReturnDataObject ar.result, error := .null }]
  else
    [{ handler := resultHandler, result := .null, error := ar.cause }]

/-- The callback of unpublish. -/
def voidCallback (resultHandler : JsVal) (ar : AsyncResult) : List HandlerCall :=
  if ar.succeeded then
    [{ handler := resultHandler, result := .null, error := .null }]
  else
    [{ handler := resultHandler, result := .null, error := ar.cause }]

/-- The callback of getRecords. -/
def listCallback (H : Host) (resultHandler : JsVal) (ar : AsyncResult) : List HandlerCall :=
  if ar.succeeded then
    [{ handler := resultHandler, result := H.convReturnListSetDataObject ar.result, error := .null }]
  else
    [{ handler := resultHandler, result := .null, error := ar.cause }]

/-! ## The methods of DiscoveryService -/

/-- The method close. -/
def close (args : List JsVal) : Outcome :=
  if args.length == 0 then
    { thrown := none
      calls := [{ method := "close()", args := [], callback := none }]
      returned := .undefined }
  else Outcome.throw invalidArguments

/-- The method publish. -/
def publish (H : Host) (args : List JsVal) : Outcome :=
  let record := arg args 0
  let resultHandler := arg args 1
  if objectHandlerGuard args then
    { thrown := none
      calls := [{ method := "publish(io.vertx.ext.discovery.Record,io.vertx.core.Handler)"
                  args := [recordParam H record]
                  callback := some (dataObjectCallback H resultHandler) }]
      returned := .undefined }
  else Outcome.throw invalidArguments

/-- The method unpublish. -/
def unpublish (args : List JsVal) : Outcome :=
  let id := arg args 0
  let resultHandler := arg args 1
  if stringHandlerGuard args then
    { thrown := none
      calls := [{ method := "unpublish(java.lang.String,io.vertx.core.Handler)"
                  args := [id]
                  callback := some (voidCallback resultHandler) }]
      returned := .undefined }
  else Outcome.throw invalidArguments

/-- The method getRecord. -/
def getRecord (H : Host) (args : List JsVal) : Outcome :=
  let filter := arg args 0
  let resultHandler := arg args 1
  if objectHandlerGuard args then
    { thrown := none
      calls := [{ method := "getRecord(io.vertx.core.json.JsonObject,io.vertx.core.Handler)"
                  args := [H.convParamJsonObject filter]
                  callback := some (dataObjectCallback H resultHandler) }]
      returned := .undefined }
  else Outcome.throw invalidArguments

/-- The method getRecords. -/
def getRecords (H : Host) (args : List JsVal) : Outcome :=
  let filter := arg args 0
  let resultHandler := arg args 1
  if objectHandlerGuard args then
    { thrown := none
      calls := [{ method := "getRecords(io.vertx.core.json.JsonObject,io.vertx.core.Handler)"
                  args := [H.convParamJsonObject filter]
                  callback := some (listCallback H resultHandler) }]
      returned := .undefined }
  else Outcome.throw invalidArguments

/-- The method update. -/
def update (H : Host) (args : List JsVal) : Outcome :=
  let record := arg args 0
  let resultHandler := arg args 1
  if objectHandlerGuard args then
    { thrown := none
      calls := [{ method := "update(io.vertx.ext.discovery.Record,io.vertx.core.Handler)"
                  args := [recordParam H record]
                  callback := some (dataObjectCallback H resultHandler) }]
      returned := .undefined }
  else Outcome.throw invalidArguments

/-- The static function DiscoveryService.getServiceReference. -/
def getServiceReference (H : Host) (args : List JsVal) : Outcome :=
  let vertx := arg args 0
  let record := arg args 1
  if args.length == 2 && typeof (arg args 0) == "object" then
    match getProp (arg args 0) "_jdel" with
    | .error e => Outcome.throw e
    | .ok jdel =>
      if truthy jdel && (typeof (arg args 1) == "object" && looseNeNull (arg args 1)) then
        match getProp vertx "_jdel" with
        | .error e => Outcome.throw e
        | .ok vertxDelegate =>
          let javaArgs := [vertxDelegate, recordParam H record]
          { thrown := none
            calls := [{ method := "getServiceReference(io.vertx.core.Vertx,io.vertx.ext.discovery.Record)"
                        args := javaArgs
                        callback := none }]
            returned := H.convReturnVertxGen
              (H.javaGetServiceReference vertxDelegate (recordParam H record)) }
      else Outcome.throw invalidArguments
  else Outcome.throw invalidArguments

/-- The five operations that complete through a result handler. -/
inductive Op where
  | publish
  | unpublish
  | update
  | getRecord
  | getRecords
  deriving DecidableEq, Repr

/-- Calling the wrapper method named by op. -/
def Op.call (H : Host) : Op → List JsVal → Outcome
  | .publish, args => DiscoveryService.publish H args
  | .unpublish, args => DiscoveryService.unpublish args
  | .update, args => DiscoveryService.update H args
  | .getRecord, args => DiscoveryService.getRecord H args
  | .getRecords, args => DiscoveryService.getRecords H args

/-- The argument guard of the method named by op. -/
def Op.guard : Op → List JsVal → Bool
  | .unpublish, args => stringHandlerGuard args
  | _, args => objectHandlerGuard args

/-- The handler calls made when the delegate delivers ar to the callback of a call. -/
def DelegateCall.deliver (c : DelegateCall) (ar : AsyncResult) : List HandlerCall :=
  match c.callback with
  | some cb => cb ar
  | none => []

/-- The handler calls made when the delegate delivers ar to every callback registered
by a wrapper call. -/
def Outcome.deliver (o : Outcome) (ar : AsyncResult) : List HandlerCall :=
  o.calls.flatMap (fun c => c.deliver ar)

/-- Two statements in sequence: the second runs only if the first did not throw. -/
def Outcome.andThen (first second : Outcome) : Outcome :=
  match first.thrown with
  | some _ => first
  | none => { thrown := second.thrown, calls := first.calls ++ second.calls,
              returned := second.returned }

/-! ## The registry core behind the delegate

The Java implementation of the delegate (record, filter matcher, store, facade) is part of the
repository but not of the script wrapper; the definitions of this section follow the
specification of the registry core. -/

/-- Modelled from the spec: the status of a record (section 3), one of UP, DOWN,
OUT_OF_SERVICE, UNKNOWN; the Java enum is missing. -/
inductive Status where
  | UP
  | DOWN
  | OUT_OF_SERVICE
  | UNKNOWN
  deriving DecidableEq, Repr

/-- Modelled from the spec: the string form of a status, used when a filter names the built-in
field status (section 4.2); the Java enum is missing. -/
def Status.stringify : Status → String
  | .UP => "UP"
  | .DOWN => "DOWN"
  | .OUT_OF_SERVICE => "OUT_OF_SERVICE"
  | .UNKNOWN => "UNKNOWN"

/-- Modelled from the spec: a metadata value, a closed variant of string, number and boolean
(sections 3 and 9); the Java metadata map is missing.  Numbers are integers here. -/
inductive Scalar where
  | str (s : String)
  | num (n : Int)
  | bool (b : Bool)
  deriving DecidableEq, Repr

/-- Modelled from the spec: stringification of a metadata value before comparison
(section 4.2); the Java matcher is missing. -/
def Scalar.stringify : Scalar → String
  | .str s => s
  | .num n => toString n
  | .bool b => toString b

/-- Modelled from the spec: the record of section 3; the Java class Record is missing.  An
absent registrationId is none. -/
structure Record where
  registrationId : Option String
  name : String
  type : String
  location : List (String × JsVal)
  metadata : List (String × Scalar)
  status : Status

/-- Modelled from the spec: the value a filter key reads on a record (section 4.2): metadata
first, then the built-in fields name, type and status; registrationId is readable as well, as
the lookups by registrationId of section 8 require.  The Java matcher is missing. -/
def Record.field (r : Record) (key : String) : Option String :=
  match r.metadata.lookup key with
  | some v => some v.stringify
  | none =>
    if key = "name" then some r.name
    else if key = "type" then some r.type
    else if key = "status" then some r.status.stringify
    else if key = "registrationId" then r.registrationId
    else none

/-- Modelled from the spec: one filter entry against a record (section 4.2): no such key, no
match; the wildcard matches any present key; a concrete value matches the equal stringified
value.  The Java matcher is missing. -/
def entryMatches (r : Record) (entry : String × String) : Bool :=
  match r.field entry.1 with
  | none => false
  | some v => entry.2 == "*" || v == entry.2

/-- Modelled from the spec: matches(filter, record) of section 4.2: all entries match.  The
Java matcher is missing. -/
def matchesFilter (filter : List (String × String)) (r : Record) : Bool :=
  filter.all (entryMatches r)

/-- Modelled from the spec: the error taxonomy of section 7; the Java failures are missing. -/
inductive RegistryError where
  | InvalidRecord
  | NotFound
  | AlreadyPublished
  | IdMismatch
  | StoreUnavailable
  | ServiceClosed
  deriving DecidableEq, Repr

/-- Modelled from the spec: the name under which a failure is reported; the Java failures are
missing. -/
def RegistryError.message : RegistryError → String
  | .InvalidRecord => "InvalidRecord"
  | .NotFound => "NotFound"
  | .AlreadyPublished => "AlreadyPublished"
  | .IdMismatch => "IdMismatch"
  | .StoreUnavailable => "StoreUnavailable"
  | .ServiceClosed => "ServiceClosed"

/-- Modelled from the spec: the kinds of lifecycle event of section 4.4; the Java notifier is
missing. -/
inductive EventKind where
  | PUBLISHED
  | UPDATED
  | UNPUBLISHED
  deriving DecidableEq, Repr

/-- Modelled from the spec: the discovery service facade state: the store in scan order, the
events emitted so far, and whether close has been called (sections 4.3 to 4.5 and 5); the
Java implementation is missing. -/
structure Registry where
  records : List Record
  events : List (EventKind × Record)
  closed : Bool

/-- Modelled from the spec: update(record) of section 4.5: refused after close; the record is
validated (type not empty, section 4.1); it requires registrationId set and existing; the
stored record under that id is replaced as a whole and UPDATED is emitted.  A failure leaves
the registry as it was (section 7).  The Java implementation is missing. -/
def Registry.update (reg : Registry) (r : Record) : Registry × Except RegistryError Record :=
  if reg.closed then (reg, .error .ServiceClosed)
  else if r.type = "" then (reg, .error .InvalidRecord)
  else
    match r.registrationId with
    | none => (reg, .error .InvalidRecord)
    | some id =>
      if id = "" then (reg, .error .InvalidRecord)
      else if reg.records.any (fun s => s.registrationId == some id) then
        ({ reg with
            records := reg.records.map (fun s => if s.registrationId = some id then r else s)
            events := reg.events ++ [(.UPDATED, r)] },
         .ok r)
      else (reg, .error .NotFound)

/-- Modelled from the spec: getRecords(filter) of section 4.5: refused after close; all records
of the scan that match, in scan order; an absent filter matches every record.  The Java
implementation is missing. -/
def Registry.getRecords (reg : Registry) (filter : Option (List (String × String))) :
    Except RegistryError (List Record) :=
  if reg.closed then .error .ServiceClosed
  else
    match filter with
    | none => .ok reg.records
    | some f => .ok (reg.records.filter (matchesFilter f))

/-- Modelled from the spec: the status named by a string of the wire form, UNKNOWN being the
default (sections 3 and 8); the Java enum is missing. -/
def Status.ofString (s : String) : Status :=
  if s = "UP" then .UP
  else if s = "DOWN" then .DOWN
  else if s = "OUT_OF_SERVICE" then .OUT_OF_SERVICE
  else .UNKNOWN

/-- Modelled from the spec: a metadata value read from the wire form, where it is a string, a
number or a boolean (section 3); the Java metadata map is missing. -/
def Scalar.ofJson : JsVal → Option Scalar
  | .string s => some (.str s)
  | .number n => some (.num n)
  | .bool b => some (.bool b)
  | _ => none

/-- Modelled from the spec: a metadata value written to the wire form (section 3); the Java
metadata map is missing. -/
def Scalar.toJson : Scalar → JsVal
  | .str s => .string s
  | .num n => .number n
  | .bool b => .bool b

/-- The attribute of a flat structured object that is a string, if there is one. -/
def stringAttribute (v : JsVal) (name : String) : Option String :=
  match v with
  | .object fields =>
    match fields.lookup name with
    | some (.string s) => some s
    | _ => none
  | _ => none

/-- The attribute of a flat structured object that is itself a mapping, empty otherwise. -/
def mappingAttribute (v : JsVal) (name : String) : List (String × JsVal) :=
  match v with
  | .object fields =>
    match fields.lookup name with
    | some (.object inner) => inner
    | _ => []
  | _ => []

/-- Modelled from the spec: reading a record from its wire form, the attribute set of section 3
as a flat structured object (section 6); registrationId is absent when the object does not
carry it.  The Java class Record is missing. -/
def recordOfJson (v : JsVal) : Record :=
  { registrationId := stringAttribute v "registrationId"
    name := (stringAttribute v "name").getD ""
    type := (stringAttribute v "type").getD ""
    location := mappingAttribute v "location"
    metadata := (mappingAttribute v "metadata").filterMap
      (fun kv => (Scalar.ofJson kv.2).map (fun x => (kv.1, x)))
    status := Status.ofString ((stringAttribute v "status").getD "UNKNOWN") }

/-- Modelled from the spec: writing a record in its wire form (section 6); registrationId is
written when it is present.  The Java class Record is missing. -/
def Record.toJson (r : Record) : JsVal :=
  .object
    ((match r.registrationId with
      | some id => [("registrationId", .string id)]
      | none => []) ++
     [("name", .string r.name), ("type", .string r.type),
      ("location", .object r.location),
      ("metadata", .object (r.metadata.map (fun kv => (kv.1, kv.2.toJson)))),
      ("status", .string r.status.stringify)])

/-- Modelled from the spec: the record wire format of section 6, as read and written on the
Java side; the Java class Record and its JSON form are missing. -/
structure Wire where
  decode : String → Record
  encode : Record → String

/-- Modelled from the spec: the delegate serving one update call that arrived over the bridge:
it reads the record, runs update on the registry and completes the callback with the stored
record or with the failure (section 7: failures are explicit failure results).  The Java
implementation is missing. -/
def delegateUpdate (W : Wire) (reg : Registry) (c : DelegateCall) : Registry × List HandlerCall :=
  match c.args with
  | [.host (.record (.jsonObject text))] =>
    match reg.update (W.decode text) with
    | (reg1, .ok r) =>
      (reg1, c.deliver { succeeded := true
                         result := .host (.record (.jsonObject (W.encode r)))
                         cause := .null })
    | (reg1, .error e) =>
      (reg1, c.deliver { succeeded := false
                         result := .null
                         cause := .host (.throwable e.message) })
  | _ => (reg, [])

/-- The script calls update and the delegate serves every call that reached it. -/
def updateOverBridge (H : Host) (W : Wire) (reg : Registry) (args : List JsVal) :
    Registry × List HandlerCall :=
  (update H args).calls.foldl
    (fun st c => ((delegateUpdate W st.1 c).1, st.2 ++ (delegateUpdate W st.1 c).2))
    (reg, [])

/-! ## Shapes of argument values, in the words of the documentation -/

/-- A value that is an object and not null: a plain object, an array or a Java object. -/
def NonNullObject (v : JsVal) : Prop :=
  (∃ fields, v = .object fields) ∨ (∃ items, v = .array items) ∨ (∃ obj, v = .host obj)

/-- A value that is a function. -/
def IsFunction (v : JsVal) : Prop := ∃ id, v = .function id

/-- A value that is a string. -/
def IsString (v : JsVal) : Prop := ∃ s, v = .string s

/-! ## A sample host and wire

The statements below are parametric in the host functions and in the wire format.  This section
gives one implementation of each, a JSON writer and reader over script values, on which the
statements are instantiated. -/

/-- The double quote character. -/
def quoteChar : Char := Char.ofNat 34

/-- The backslash character. -/
def backslashChar : Char := Char.ofNat 92

/-- Escaping of the characters of a JSON string. -/
def escapeChars : List Char → List Char
  | [] => []
  | c :: cs =>
    if c = quoteChar ∨ c = backslashChar then backslashChar :: c :: escapeChars cs
    else c :: escapeChars cs

/-- A JSON string literal. -/
def quoteString (s : String) : String :=
  String.mk (quoteChar :: escapeChars s.data ++ [quoteChar])

mutual
/-- JSON text of a script value, after JSON.stringify: members whose value is undefined or a
function are left out of an object and become null in an array. -/
def jsonText : JsVal → String
  | .undefined => "null"
  | .null => "null"
  | .bool b => toString b
  | .number n => toString n
  | .string s => quoteString s
  | .object fields => "\x7b" ++ ",".intercalate (jsonMembers fields) ++ "\x7d"
  | .array items => "[" ++ ",".intercalate (jsonItems items) ++ "]"
  | .function _ => "null"
  | .host _ => "\x7b\x7d"
/-- JSON text of the members of an object. -/
def jsonMembers : List (String × JsVal) → List String
  | [] => []
  | (_, .undefined) :: rest => jsonMembers rest
  | (_, .function _) :: rest => jsonMembers rest
  | (k, v) :: rest => (quoteString k ++ ":" ++ jsonText v) :: jsonMembers rest
/-- JSON text of the items of an array. -/
def jsonItems : List JsVal → List String
  | [] => []
  | v :: rest => jsonText v :: jsonItems rest
end

/-- Dropping leading blanks. -/
def skipBlanks : List Char → List Char
  | [] => []
  | c :: cs => if c = Char.ofNat 32 ∨ c = Char.ofNat 10 ∨ c = Char.ofNat 9 then skipBlanks cs
               else c :: cs

/-- Reading the rest of a string literal, up to and including the closing quote. -/
def readString : List Char → Option (List Char × List Char)
  | [] => none
  | c :: cs =>
    if c = quoteChar then some ([], cs)
    else if c = backslashChar then
      match cs with
      | [] => none
      | d :: ds =>
        match readString ds with
        | none => none
        | some (body, rest) => some (d :: body, rest)
    else
      match readString cs with
      | none => none
      | some (body, rest) => some (c :: body, rest)

/-- Reading a run of decimal digits. -/
def readDigits (acc : Nat) : List Char → Nat × List Char
  | [] => (acc, [])
  | c :: cs =>
    if c.isDigit then readDigits (acc * 10 + (c.toNat - 48)) cs else (acc, c :: cs)

/-- Dropping a keyword from the front of the input. -/
def dropWord : List Char → List Char → Option (List Char)
  | [], cs => some cs
  | _ :: _, [] => none
  | w :: ws, c :: cs => if w = c then dropWord ws cs else none

mutual
/-- Reading one JSON value; fuel bounds the number of nested reads. -/
def readValue : Nat → List Char → Option (JsVal × List Char)
  | 0, _ => none
  | fuel + 1, cs =>
    match skipBlanks cs with
    | [] => none
    | c :: rest =>
      if c = quoteChar then
        match readString rest with
        | none => none
        | some (body, rest1) => some (.string (String.mk body), rest1)
      else if c = Char.ofNat 123 then
        match skipBlanks rest with
        | [] => none
        | d :: rest1 =>
          if d = Char.ofNat 125 then some (.object [], rest1)
          else
            match readMembers fuel (d :: rest1) with
            | none => none
            | some (fields, rest2) => some (.object fields, rest2)
      else if c = Char.ofNat 91 then
        match skipBlanks rest with
        | [] => none
        | d :: rest1 =>
          if d = Char.ofNat 93 then some (.array [], rest1)
          else
            match readItems fuel (d :: rest1) with
            | none => none
            | some (items, rest2) => some (.array items, rest2)
      else if c = Char.ofNat 45 then
        match readDigits 0 rest with
        | (n, rest1) => some (.number (-(n : Int)), rest1)
      else if c.isDigit then
        match readDigits 0 (c :: rest) with
        | (n, rest1) => some (.number (n : Int), rest1)
      else
        match dropWord "true".data (c :: rest) with
        | some rest1 => some (.bool true, rest1)
        | none =>
          match dropWord "false".data (c :: rest) with
          | some rest1 => some (.bool false, rest1)
          | none =>
            match dropWord "null".data (c :: rest) with
            | some rest1 => some (.null, rest1)
            | none => none
/-- Reading the members of an object up to and including the closing brace. -/
def readMembers : Nat → List Char → Option (List (String × JsVal) × List Char)
  | 0, _ => none
  | fuel + 1, cs =>
    match skipBlanks cs with
    | [] => none
    | q :: rest =>
      if q = quoteChar then
        match readString rest with
        | none => none
        | some (key, rest1) =>
          match skipBlanks rest1 with
          | [] => none
          | colon :: rest2 =>
            if colon = Char.ofNat 58 then
              match readValue fuel rest2 with
              | none => none
              | some (v, rest3) =>
                match skipBlanks rest3 with
                | [] => none
                | d :: rest4 =>
                  if d = Char.ofNat 44 then
                    match readMembers fuel rest4 with
                    | none => none
                    | some (more, rest5) => some ((String.mk key, v) :: more, rest5)
                  else if d = Char.ofNat 125 then some ([(String.mk key, v)], rest4)
                  else none
            else none
      else none
/-- Reading the items of an array up to and including the closing bracket. -/
def readItems : Nat → List Char → Option (List JsVal × List Char)
  | 0, _ => none
  | fuel + 1, cs =>
    match readValue fuel cs with
    | none => none
    | some (v, rest) =>
      match skipBlanks rest with
      | [] => none
      | d :: rest1 =>
        if d = Char.ofNat 44 then
          match readItems fuel rest1 with
          | none => none
          | some (more, rest2) => some (v :: more, rest2)
        else if d = Char.ofNat 93 then some ([v], rest1)
        else none
end

/-- Reading a whole JSON text; none when it is not JSON. -/
def parseJson (text : String) : Option JsVal :=
  match readValue (text.length + 1) text.data with
  | none => none
  | some (v, rest) =>
    match skipBlanks rest with
    | [] => some v
    | _ :: _ => none

/-- The script view of a data object returned by the delegate: the JSON it holds. -/
def dataObjectToJs : JsVal → JsVal
  | .host (.record (.jsonObject text)) => (parseJson text).getD .null
  | .host (.jsonObject text) => (parseJson text).getD .null
  | .host _ => .object []
  | v => v

/-- The script view of one element of a Java list of data objects. -/
def listItemToJs : JavaObj → JsVal
  | .record (.jsonObject text) => (parseJson text).getD .null
  | .jsonObject text => (parseJson text).getD .null
  | _ => .object []

/-- A host that writes JSON with jsonText, passes null through its conversions, reads data
objects back from their JSON and turns Java lists into arrays. -/
def sampleHost : Host where
  stringify := jsonText
  convParamJsonObject := fun v =>
    if looseNeNull v then .host (.jsonObject (jsonText v)) else .null
  convReturnDataObject := dataObjectToJs
  convReturnListSetDataObject := fun v =>
    match v with
    | .host (.list items) => .array (items.map listItemToJs)
    | _ => .null
  convReturnVertxGen := fun v => if looseNeNull v then .object [("_jdel", v)] else .null
  javaGetServiceReference := fun _ _ => .host (.other 0)

/-- The wire format that reads a record from the attributes of its JSON text and writes it
back as JSON text. -/
def jsonWire : Wire where
  decode := fun text => recordOfJson ((parseJson text).getD .null)
  encode := fun r => jsonText r.toJson

/-- A registry with one published record R1. -/
def sampleRegistry : Registry where
  records := [{ registrationId := some "R1", name := "svc", type := "http-endpoint"
                location := [], metadata := [("env", .str "prod")], status := .UP }]
  events := []
  closed := false

/-! ## Basic facts about the guards -/

theorem typeof_object_iff (v : JsVal) :
    (typeof v = "object" ∧ looseNeNull v = true) ↔ NonNullObject v := by
  cases v <;> simp [typeof, looseNeNull, NonNullObject]

theorem typeof_function_iff (v : JsVal) : typeof v = "function" ↔ IsFunction v := by
  cases v <;> simp [typeof, IsFunction]

theorem typeof_string_iff (v : JsVal) : typeof v = "string" ↔ IsString v := by
  cases v <;> simp [typeof, IsString]

theorem objectHandlerGuard_iff (args : List JsVal) :
    objectHandlerGuard args = true ↔
      ∃ a f, args = [a, f] ∧ NonNullObject a ∧ IsFunction f := by
  constructor
  · intro h
    match args, h with
    | [a, f], h =>
      simp only [objectHandlerGuard, arg, List.getD, List.length, Bool.and_eq_true,
        beq_iff_eq] at h
      refine ⟨a, f, rfl, (typeof_object_iff a).1 ?_, (typeof_function_iff f).1 ?_⟩
      · simpa using h.1.2
      · simpa using h.2
    | [], h => simp [objectHandlerGuard] at h
    | [_], h => simp [objectHandlerGuard] at h
    | _ :: _ :: _ :: _, h => simp [objectHandlerGuard] at h
  · rintro ⟨a, f, rfl, ha, hf⟩
    have h1 := (typeof_object_iff a).2 ha
    have h2 := (typeof_function_iff f).2 hf
    simp [objectHandlerGuard, arg, h1.1, h1.2, h2]

theorem stringHandlerGuard_iff (args : List JsVal) :
    stringHandlerGuard args = true ↔
      ∃ a f, args = [a, f] ∧ IsString a ∧ IsFunction f := by
  constructor
  · intro h
    match args, h with
    | [a, f], h =>
      simp only [stringHandlerGuard, arg, List.getD, List.length, Bool.and_eq_true,
        beq_iff_eq] at h
      refine ⟨a, f, rfl, (typeof_string_iff a).1 ?_, (typeof_function_iff f).1 ?_⟩
      · simpa using h.1.2
      · simpa using h.2
    | [], h => simp [stringHandlerGuard] at h
    | [_], h => simp [stringHandlerGuard] at h
    | _ :: _ :: _ :: _, h => simp [stringHandlerGuard] at h
  · rintro ⟨a, f, rfl, ha, hf⟩
    have h1 := (typeof_string_iff a).2 ha
    have h2 := (typeof_function_iff f).2 hf
    simp [stringHandlerGuard, arg, h1, h2]

/-- What an accepted call does: one delegate call carrying one callback. -/
theorem Op.deliver_of_guard (H : Host) (op : Op) (args : List JsVal) (ar : AsyncResult)
    (hg : op.guard args = true) :
    (op.call H args).deliver ar =
      match op with
      | .unpublish => voidCallback (arg args 1) ar
      | .getRecords => listCallback H (arg args 1) ar
      | _ => dataObjectCallback H (arg args 1) ar := by
  cases op <;>
    simp [Op.guard] at hg <;>
    simp [Op.call, DiscoveryService.publish, DiscoveryService.unpublish,
      DiscoveryService.update, DiscoveryService.getRecord, DiscoveryService.getRecords, hg,
      Outcome.deliver, DelegateCall.deliver]

/-- The two ways a call of getServiceReference can end: it throws before any delegate call, or
it makes one delegate call whose second argument is the Record built from the record. -/
theorem getServiceReference_cases (H : Host) (args : List JsVal) :
    ((getServiceReference H args).calls = [] ∧ (getServiceReference H args).thrown ≠ none) ∨
    (looseNeNull (arg args 1) = true ∧ (getServiceReference H args).thrown = none ∧
      ∃ v, (getServiceReference H args).calls.map (fun c => c.args)
        = [[v, newRecord H (arg args 1)]]) := by
  unfold getServiceReference
  by_cases h1 : (args.length == 2 && typeof (arg args 0) == "object") = true
  · cases h2 : getProp (arg args 0) "_jdel" with
    | error e => simp [h1, h2, Outcome.throw]
    | ok jdel =>
      by_cases h3 : (truthy jdel &&
          (typeof (arg args 1) == "object" && looseNeNull (arg args 1))) = true
      · have h3c := h3
        simp only [Bool.and_eq_true, beq_iff_eq] at h3c
        obtain ⟨h4, h5, h6⟩ := h3c
        simp [h1, h2, recordParam, h4, h5, h6]
      · simp [h1, h2, h3, Outcome.throw]
  · simp [h1, Outcome.throw]

/-! ## Claims settled on the wrapper -/

/-- C1 (as stated, refuted): unpublish with a valid id and handler, completed by a succeeded
async result, calls the handler with a null result and a null error, so neither a success
value nor a failure cause is passed. -/
theorem unpublish_success_passes_neither :
    (Op.guard .unpublish [.string "R1", .function 0] = true) ∧
    (Op.call sampleHost .unpublish [.string "R1", .function 0]).deliver
        { succeeded := true, result := .null, cause := .null }
      = [{ handler := .function 0, result := .null, error := .null }] ∧
    ¬ (∀ (H : Host) (op : Op) (args : List JsVal) (ar : AsyncResult),
        op.guard args = true →
        ∀ c ∈ (op.call H args).deliver ar,
          (c.result.isNull = false ∧ c.error.isNull = true) ∨
          (c.result.isNull = true ∧ c.error.isNull = false)) := by
  refine ⟨by decide, rfl, ?_⟩
  intro h
  have h1 := h sampleHost .unpublish [.string "R1", .function 0]
    { succeeded := true, result := .null, cause := .null } (by decide)
    { handler := .function 0, result := .null, error := .null }
    (by simp [Op.call, unpublish, stringHandlerGuard, arg, typeof, Outcome.deliver,
          DelegateCall.deliver, voidCallback])
  simp [JsVal.isNull] at h1

/-- C1 (amended): for each of the five operations called with accepted arguments and every
async result delivered, the handler given as second argument is invoked exactly once and never
with both a non-null result and a non-null error: on a failed result with a null result and
exactly the cause of the async result as the error; on a succeeded result with a null error
and, as the result, the conversion of the result of the async result (the data-object
conversion for publish, update and getRecord, the list conversion for getRecords) or null for
unpublish. -/
theorem handler_called_once_never_both (H : Host) (op : Op) (args : List JsVal)
    (ar : AsyncResult) (hg : op.guard args = true) :
    ∃ c, (op.call H args).deliver ar = [c] ∧ c.handler = arg args 1 ∧
      (c.result.isNull = true ∨ c.error.isNull = true) ∧
      (ar.succeeded = true →
        c.error = .null ∧
        c.result =
          match op with
          | .unpublish => .null
          | .getRecords => H.convReturnListSetDataObject ar.result
          | _ => H.convReturnDataObject ar.result) ∧
      (ar.succeeded = false → c.result = .null ∧ c.error = ar.cause) := by
  rw [Op.deliver_of_guard H op args ar hg]
  cases hs : ar.succeeded <;> cases op <;>
    simp [voidCallback, listCallback, dataObjectCallback, hs, JsVal.isNull]

theorem handler_called_once_never_both_witness :
    Op.guard .publish [.object [("type", .string "http-endpoint")], .function 7] = true ∧
    ∃ c, (Op.call sampleHost .publish
            [.object [("type", .string "http-endpoint")], .function 7]).deliver
          { succeeded := true
            result := .host (.record (.jsonObject "\x7b\x22registrationId\x22:\x22R1\x22\x7d"))
            cause := .null } = [c] ∧
      c.handler = arg [.object [("type", .string "http-endpoint")], .function 7] 1 ∧
      (c.result.isNull = true ∨ c.error.isNull = true) ∧
      ((true : Bool) = true →
        c.error = .null ∧
        c.result = sampleHost.convReturnDataObject
          (.host (.record (.jsonObject "\x7b\x22registrationId\x22:\x22R1\x22\x7d")))) ∧
      ((true : Bool) = false → c.result = .null ∧ c.error = .null) :=
  ⟨by decide,
   handler_called_once_never_both sampleHost .publish
     [.object [("type", .string "http-endpoint")], .function 7]
     { succeeded := true
       result := .host (.record (.jsonObject "\x7b\x22registrationId\x22:\x22R1\x22\x7d"))
       cause := .null } (by decide)⟩

/-- C2 (evaluation at the failing input): getRecord and getRecords called with a null filter
and a handler function throw the invalid-arguments TypeError and make no delegate call,
whereas the same calls with an empty-object filter are forwarded to the delegate. -/
theorem null_filter_is_rejected (H : Host) (h : Nat) :
    (getRecord H [.null, .function h]).thrown = some invalidArguments ∧
    (getRecord H [.null, .function h]).calls = [] ∧
    (getRecords H [.null, .function h]).thrown = some invalidArguments ∧
    (getRecords H [.null, .function h]).calls = [] ∧
    (getRecord H [.object [], .function h]).thrown = none ∧
    (getRecord H [.object [], .function h]).calls.map (fun c => (c.method, c.args))
      = [("getRecord(io.vertx.core.json.JsonObject,io.vertx.core.Handler)",
          [H.convParamJsonObject (.object [])])] ∧
    (getRecords H [.object [], .function h]).thrown = none ∧
    (getRecords H [.object [], .function h]).calls.map (fun c => (c.method, c.args))
      = [("getRecords(io.vertx.core.json.JsonObject,io.vertx.core.Handler)",
          [H.convParamJsonObject (.object [])])] := by
  simp [getRecord, getRecords, objectHandlerGuard, arg, typeof, looseNeNull, Outcome.throw]

/-- C3: for each of the five operations called with accepted arguments, when the async result
delivered by the delegate did not succeed, the handler is called exactly once, with a null
result and with the cause of the async result as the error. -/
theorem failure_reaches_handler (H : Host) (op : Op) (args : List JsVal) (ar : AsyncResult)
    (hg : op.guard args = true) (hf : ar.succeeded = false) :
    (op.call H args).deliver ar
      = [{ handler := arg args 1, result := .null, error := ar.cause }] := by
  rw [Op.deliver_of_guard H op args ar hg]
  cases op <;> simp [voidCallback, listCallback, dataObjectCallback, hf]

theorem failure_reaches_handler_witness :
    Op.guard .update [.object [("registrationId", .string "R1")], .function 3] = true ∧
    (false : Bool) = false ∧
    (Op.call sampleHost .update
        [.object [("registrationId", .string "R1")], .function 3]).deliver
        { succeeded := false, result := .null, cause := .host (.throwable "NotFound") }
      = [{ handler := arg [.object [("registrationId", .string "R1")], .function 3] 1,
           result := .null, error := .host (.throwable "NotFound") }] :=
  ⟨by decide, rfl,
   failure_reaches_handler sampleHost .update
     [.object [("registrationId", .string "R1")], .function 3]
     { succeeded := false, result := .null, cause := .host (.throwable "NotFound") }
     (by decide) rfl⟩

/-- C4: publish, update, getRecord and getRecords throw the invalid-arguments TypeError exactly
when the argument list is not a non-null object followed by a function; unpublish exactly when
it is not a string followed by a function; close exactly when an argument is passed.  Whenever
it is thrown no delegate method has been invoked and no async result can reach the handler. -/
theorem invalid_arguments_rejected (H : Host) (args : List JsVal) :
    (∀ op : Op, op ≠ .unpublish →
      ((op.call H args).thrown = some invalidArguments ↔
        ¬ ∃ a f, args = [a, f] ∧ NonNullObject a ∧ IsFunction f)) ∧
    ((unpublish args).thrown = some invalidArguments ↔
        ¬ ∃ a f, args = [a, f] ∧ IsString a ∧ IsFunction f) ∧
    ((close args).thrown = some invalidArguments ↔ args ≠ []) ∧
    (∀ op : Op, (op.call H args).thrown = some invalidArguments →
      (op.call H args).calls = [] ∧ ∀ ar, (op.call H args).deliver ar = []) ∧
    ((close args).thrown = some invalidArguments → (close args).calls = []) := by
  refine ⟨?_, ?_, ?_, ?_, ?_⟩
  · intro op hop
    rw [← objectHandlerGuard_iff]
    cases op <;> first
      | exact absurd rfl hop
      | (cases hg : objectHandlerGuard args <;>
          simp [Op.call, publish, update, getRecord, getRecords, hg, Outcome.throw])
  · rw [← stringHandlerGuard_iff]
    cases hg : stringHandlerGuard args <;> simp [unpublish, hg, Outcome.throw]
  · cases args <;> simp [close, Outcome.throw]
  · intro op hthrown
    cases op
    case unpublish =>
      cases hg : stringHandlerGuard args <;>
        simp [Op.call, unpublish, hg, Outcome.throw, Outcome.deliver] at hthrown ⊢
    all_goals
      cases hg : objectHandlerGuard args <;>
        simp [Op.call, publish, update, getRecord, getRecords, hg, Outcome.throw,
          Outcome.deliver] at hthrown ⊢
  · cases args <;> simp [close, Outcome.throw]

/-- C5: every accepted call of publish, unpublish, update, getRecord or getRecords raises
nothing and invokes exactly one delegate method, the one of the same name, with the converted
argument (the Record built from the record, the id itself, the converted filter); when the async
result succeeded the handler receives the conversion of its result (nothing for unpublish, whose
result is void) together with a null error. -/
theorem wrapper_forwards_to_delegate (H : Host) (a id f : JsVal) (ar : AsyncResult)
    (ha : NonNullObject a) (hid : IsString id) (hf : IsFunction f)
    (hs : ar.succeeded = true) :
    ((publish H [a, f]).thrown = none ∧
      (publish H [a, f]).calls.map (fun c => (c.method, c.args))
        = [("publish(io.vertx.ext.discovery.Record,io.vertx.core.Handler)", [newRecord H a])] ∧
      (publish H [a, f]).deliver ar
        = [{ handler := f, result := H.convReturnDataObject ar.result, error := .null }]) ∧
    ((unpublish [id, f]).thrown = none ∧
      (unpublish [id, f]).calls.map (fun c => (c.method, c.args))
        = [("unpublish(java.lang.String,io.vertx.core.Handler)", [id])] ∧
      (unpublish [id, f]).deliver ar
        = [{ handler := f, result := .null, error := .null }]) ∧
    ((update H [a, f]).thrown = none ∧
      (update H [a, f]).calls.map (fun c => (c.method, c.args))
        = [("update(io.vertx.ext.discovery.Record,io.vertx.core.Handler)", [newRecord H a])] ∧
      (update H [a, f]).deliver ar
        = [{ handler := f, result := H.convReturnDataObject ar.result, error := .null }]) ∧
    ((getRecord H [a, f]).thrown = none ∧
      (getRecord H [a, f]).calls.map (fun c => (c.method, c.args))
        = [("getRecord(io.vertx.core.json.JsonObject,io.vertx.core.Handler)",
            [H.convParamJsonObject a])] ∧
      (getRecord H [a, f]).deliver ar
        = [{ handler := f, result := H.convReturnDataObject ar.result, error := .null }]) ∧
    ((getRecords H [a, f]).thrown = none ∧
      (getRecords H [a, f]).calls.map (fun c => (c.method, c.args))
        = [("getRecords(io.vertx.core.json.JsonObject,io.vertx.core.Handler)",
            [H.convParamJsonObject a])] ∧
      (getRecords H [a, f]).deliver ar
        = [{ handler := f, result := H.convReturnListSetDataObject ar.result,
             error := .null }]) := by
  have hobj : objectHandlerGuard [a, f] = true :=
    (objectHandlerGuard_iff _).2 ⟨a, f, rfl, ha, hf⟩
  have hstr : stringHandlerGuard [id, f] = true :=
    (stringHandlerGuard_iff _).2 ⟨id, f, rfl, hid, hf⟩
  have hne : looseNeNull a = true := ((typeof_object_iff a).2 ha).2
  simp [publish, unpublish, update, getRecord, getRecords, hobj, hstr, arg, recordParam, hne,
    Outcome.deliver, DelegateCall.deliver, dataObjectCallback, voidCallback, listCallback, hs]

theorem wrapper_forwards_to_delegate_witness :
    NonNullObject (.object [("type", .string "http-endpoint")]) ∧
    IsString (.string "R1") ∧ IsFunction (.function 1) ∧ (true : Bool) = true ∧
    ((publish sampleHost [.object [("type", .string "http-endpoint")], .function 1]).calls.map
        (fun c => (c.method, c.args))
      = [("publish(io.vertx.ext.discovery.Record,io.vertx.core.Handler)",
          [newRecord sampleHost (.object [("type", .string "http-endpoint")])])]) ∧
    ((unpublish [.string "R1", .function 1]).deliver
        { succeeded := true, result := .null, cause := .null }
      = [{ handler := .function 1, result := .null, error := .null }]) :=
  have h := wrapper_forwards_to_delegate sampleHost
    (.object [("type", .string "http-endpoint")]) (.string "R1") (.function 1)
    { succeeded := true, result := .null, cause := .null }
    (Or.inl ⟨_, rfl⟩) ⟨_, rfl⟩ ⟨_, rfl⟩ rfl
  ⟨Or.inl ⟨_, rfl⟩, ⟨_, rfl⟩, ⟨_, rfl⟩, rfl, h.1.2.1, h.2.1.2.2⟩

/-- C6: on a host whose data-object conversion maps null to null and whose list conversion maps
the empty Java list to the empty array, for every non-null filter object and handler function,
a lookup that succeeded without a match makes getRecord call the handler with a null result and
a null error, and getRecords call it with an empty array and a null error. -/
theorem empty_lookup_is_a_success (H : Host) (filter f cause : JsVal)
    (hfilter : NonNullObject filter) (hf : IsFunction f)
    (hnull : H.convReturnDataObject .null = .null)
    (hempty : H.convReturnListSetDataObject (.host (.list [])) = .array []) :
    (getRecord H [filter, f]).deliver { succeeded := true, result := .null, cause := cause }
      = [{ handler := f, result := .null, error := .null }] ∧
    (getRecords H [filter, f]).deliver
        { succeeded := true, result := .host (.list []), cause := cause }
      = [{ handler := f, result := .array [], error := .null }] := by
  have hobj : objectHandlerGuard [filter, f] = true :=
    (objectHandlerGuard_iff _).2 ⟨filter, f, rfl, hfilter, hf⟩
  simp [getRecord, getRecords, hobj, arg, Outcome.deliver, DelegateCall.deliver,
    dataObjectCallback, listCallback, hnull, hempty]

theorem empty_lookup_is_a_success_witness :
    NonNullObject (.object [("env", .string "staging")]) ∧ IsFunction (.function 2) ∧
    sampleHost.convReturnDataObject .null = .null ∧
    sampleHost.convReturnListSetDataObject (.host (.list [])) = .array [] ∧
    (getRecord sampleHost [.object [("env", .string "staging")], .function 2]).deliver
        { succeeded := true, result := .null, cause := .null }
      = [{ handler := .function 2, result := .null, error := .null }] ∧
    (getRecords sampleHost [.object [("env", .string "staging")], .function 2]).deliver
        { succeeded := true, result := .host (.list []), cause := .null }
      = [{ handler := .function 2, result := .array [], error := .null }] :=
  ⟨Or.inl ⟨_, rfl⟩, ⟨_, rfl⟩, rfl, rfl,
   empty_lookup_is_a_success sampleHost (.object [("env", .string "staging")]) (.function 2)
     .null (Or.inl ⟨_, rfl⟩) ⟨_, rfl⟩ rfl rfl⟩

/-- C8 (as stated, refuted): two calls of close() make two calls of the delegate method
close(), one call makes one, so the calls reaching the underlying service differ. -/
theorem close_twice_reaches_delegate_twice :
    ((close []).andThen (close [])).calls.map (fun c => c.method) = ["close()", "close()"] ∧
    (close []).calls.map (fun c => c.method) = ["close()"] ∧
    ((close []).andThen (close [])).calls.length ≠ (close []).calls.length := by
  simp [close, Outcome.andThen]

/-- C8 (amended): close() called without arguments raises nothing and forwards one close() to
the delegate; the wrapper keeps no state, so a second close() does exactly what the first did,
and two calls in sequence raise nothing and forward two close() calls. -/
theorem close_forwards_every_call :
    (close []).thrown = none ∧
    (close []).calls.map (fun c => (c.method, c.args)) = [("close()", [])] ∧
    ((close []).andThen (close [])).thrown = none ∧
    ((close []).andThen (close [])).calls.map (fun c => (c.method, c.args))
      = (close []).calls.map (fun c => (c.method, c.args))
        ++ (close []).calls.map (fun c => (c.method, c.args)) ∧
    ((close []).andThen (close [])).calls.map (fun c => (c.method, c.args))
      = [("close()", []), ("close()", [])] := by
  simp [close, Outcome.andThen]

/-- C10: publish, update and getServiceReference never hand a null record to the delegate:
every delegate call they make carries the Record built from JSON.stringify of the record
argument, which is not null; an accepted argument list has a record for which the test
record != null holds, and then exactly one such call is made. -/
theorem delegate_never_receives_null_record (H : Host) (args : List JsVal) :
    (∀ c ∈ (publish H args).calls, c.args = [newRecord H (arg args 0)]) ∧
    (∀ c ∈ (update H args).calls, c.args = [newRecord H (arg args 0)]) ∧
    (∀ c ∈ (getServiceReference H args).calls,
      ∃ v, c.args = [v, newRecord H (arg args 1)]) ∧
    (∀ r, (newRecord H r).isNull = false ∧ looseNeNull (newRecord H r) = true) ∧
    (objectHandlerGuard args = true →
      looseNeNull (arg args 0) = true ∧
      (publish H args).calls.map (fun c => c.args) = [[newRecord H (arg args 0)]] ∧
      (update H args).calls.map (fun c => c.args) = [[newRecord H (arg args 0)]]) ∧
    ((getServiceReference H args).thrown = none →
      looseNeNull (arg args 1) = true ∧
      ∃ v, (getServiceReference H args).calls.map (fun c => c.args)
        = [[v, newRecord H (arg args 1)]]) := by
  have key : objectHandlerGuard args = true → looseNeNull (arg args 0) = true := by
    intro hg
    obtain ⟨a, f, rfl, ha, -⟩ := (objectHandlerGuard_iff args).1 hg
    exact ((typeof_object_iff a).2 ha).2
  refine ⟨?_, ?_, ?_, ?_, ?_, ?_⟩
  · cases hg : objectHandlerGuard args
    · simp [publish, hg, Outcome.throw]
    · simp [publish, hg, recordParam, key hg]
  · cases hg : objectHandlerGuard args
    · simp [update, hg, Outcome.throw]
    · simp [update, hg, recordParam, key hg]
  · rcases getServiceReference_cases H args with h | ⟨h1, -, v, h2⟩
    · simp [h.1]
    · intro c hc
      refine ⟨v, ?_⟩
      have hmem : c.args ∈ (getServiceReference H args).calls.map (fun c => c.args) :=
        List.mem_map_of_mem _ hc
      rw [h2] at hmem
      simpa using hmem
  · intro r
    simp [newRecord, JsVal.isNull, looseNeNull]
  · intro hg
    simp [publish, update, hg, recordParam, key hg]
  · intro hthrown
    rcases getServiceReference_cases H args with h | ⟨h1, -, v, h2⟩
    · exact absurd hthrown h.2
    · exact ⟨h1, v, h2⟩

/-! ## Claims settled on the registry core -/

/-- A record without a registration id is refused by update and the registry is untouched. -/
theorem Registry.update_unregistered (reg : Registry) (r : Record)
    (hid : r.registrationId = none ∨ r.registrationId = some "") :
    ∃ e, reg.update r = (reg, .error e) := by
  unfold Registry.update
  by_cases hc : reg.closed = true
  · exact ⟨.ServiceClosed, by simp [hc]⟩
  · by_cases ht : r.type = ""
    · exact ⟨.InvalidRecord, by simp [hc, ht]⟩
    · rcases hid with h | h
      · exact ⟨.InvalidRecord, by simp [hc, ht, h]⟩
      · exact ⟨.InvalidRecord, by simp [hc, ht, h]⟩

/-- The sample bridge at work: a record object without registrationId reaches the delegate
without one and a record object carrying R1 reaches it with R1, in which case the stored record
is replaced and the handler receives the updated record and a null error. -/
theorem sample_bridge_carries_registration_id :
    sampleHost.stringify (.object [("name", .string "svc")])
      = "\x7b\x22name\x22:\x22svc\x22\x7d" ∧
    (jsonWire.decode (sampleHost.stringify (.object [("name", .string "svc")]))).registrationId
      = none ∧
    (jsonWire.decode (sampleHost.stringify
        (.object [("registrationId", .string "R1"), ("name", .string "renamed"),
                  ("type", .string "http-endpoint")]))).registrationId = some "R1" ∧
    (updateOverBridge sampleHost jsonWire sampleRegistry
        [.object [("registrationId", .string "R1"), ("name", .string "renamed"),
                  ("type", .string "http-endpoint")], .function 4]).1.records.map
        (fun r => (r.registrationId, r.name)) = [(some "R1", "renamed")] ∧
    (updateOverBridge sampleHost jsonWire sampleRegistry
        [.object [("registrationId", .string "R1"), ("name", .string "renamed"),
                  ("type", .string "http-endpoint")], .function 4]).2.map
        (fun c => (c.result.isNull, c.error.isNull)) = [(false, true)] := by
  refine ⟨by decide, by decide, by decide, by decide, by decide⟩

/-- C7: for every record object whose registrationId attribute is absent or the empty string,
sent by update(record, handler) over a bridge that carries the registrationId attribute
faithfully (the delegate reads from the JSON text the attribute the object has), the update
does not complete successfully: the handler is called once, with a null result and a non-null
failure cause, never with a success value, and the registry (in particular every stored
record) is unchanged. -/
theorem update_requires_registration_id (H : Host) (W : Wire) (reg : Registry)
    (fields : List (String × JsVal)) (f : JsVal) (hf : IsFunction f)
    (hid : fields.lookup "registrationId" = none ∨
           fields.lookup "registrationId" = some (.string ""))
    (hwire : (W.decode (H.stringify (.object fields))).registrationId
              = stringAttribute (.object fields) "registrationId") :
    (updateOverBridge H W reg [.object fields, f]).1 = reg ∧
    (updateOverBridge H W reg [.object fields, f]).1.records = reg.records ∧
    ∃ cause, cause.isNull = false ∧
      (updateOverBridge H W reg [.object fields, f]).2
        = [{ handler := f, result := .null, error := cause }] := by
  have ha : NonNullObject (.object fields) := Or.inl ⟨fields, rfl⟩
  have hobj : objectHandlerGuard [.object fields, f] = true :=
    (objectHandlerGuard_iff _).2 ⟨_, f, rfl, ha, hf⟩
  have hdec : (W.decode (H.stringify (.object fields))).registrationId = none ∨
      (W.decode (H.stringify (.object fields))).registrationId = some "" := by
    rw [hwire]
    rcases hid with h | h
    · exact Or.inl (by simp [stringAttribute, h])
    · exact Or.inr (by simp [stringAttribute, h])
  obtain ⟨e, he⟩ := Registry.update_unregistered reg (W.decode (H.stringify (.object fields))) hdec
  have hrun : updateOverBridge H W reg [.object fields, f]
      = (reg, [{ handler := f, result := .null, error := .host (.throwable e.message) }]) := by
    simp [updateOverBridge, update, hobj, arg, recordParam, looseNeNull, newRecord,
      delegateUpdate, he, DelegateCall.deliver, dataObjectCallback]
  rw [hrun]
  exact ⟨rfl, rfl, .host (.throwable e.message), rfl, rfl⟩

theorem update_requires_registration_id_witness :
    IsFunction (.function 4) ∧
    (([("name", .string "svc"), ("type", .string "http-endpoint")] :
        List (String × JsVal)).lookup "registrationId" = none ∨
     ([("name", .string "svc"), ("type", .string "http-endpoint")] :
        List (String × JsVal)).lookup "registrationId" = some (.string "")) ∧
    (jsonWire.decode (sampleHost.stringify
        (.object [("name", .string "svc"), ("type", .string "http-endpoint")]))).registrationId
      = stringAttribute (.object [("name", .string "svc"), ("type", .string "http-endpoint")])
          "registrationId" ∧
    (updateOverBridge sampleHost jsonWire sampleRegistry
        [.object [("name", .string "svc"), ("type", .string "http-endpoint")],
         .function 4]).1 = sampleRegistry ∧
    (updateOverBridge sampleHost jsonWire sampleRegistry
        [.object [("name", .string "svc"), ("type", .string "http-endpoint")],
         .function 4]).1.records = sampleRegistry.records ∧
    ∃ cause, cause.isNull = false ∧
      (updateOverBridge sampleHost jsonWire sampleRegistry
          [.object [("name", .string "svc"), ("type", .string "http-endpoint")],
           .function 4]).2
        = [{ handler := .function 4, result := .null, error := cause }] :=
  ⟨⟨_, rfl⟩, Or.inl rfl, by decide,
   update_requires_registration_id sampleHost jsonWire sampleRegistry
     [("name", .string "svc"), ("type", .string "http-endpoint")] (.function 4) ⟨_, rfl⟩
     (Or.inl rfl) (by decide)⟩

/-- C9: on a registry that is open, getRecords(filter) returns a list, and a record is in it
exactly when it is stored and every entry of the filter matches it; the entry (k, "*") matches
exactly when the record has a value for k, whatever it is, and an entry (k, v) with v other
than the wildcard matches exactly when the value of the record for k is v. -/
theorem getRecords_returns_exactly_the_matches (reg : Registry)
    (filter : List (String × String)) (r : Record) (hopen : reg.closed = false) :
    (∃ found, reg.getRecords (some filter) = .ok found ∧
      (r ∈ found ↔ r ∈ reg.records ∧ ∀ e ∈ filter, entryMatches r e = true)) ∧
    (∀ k, entryMatches r (k, "*") = true ↔ ∃ v, r.field k = some v) ∧
    (∀ k v, v ≠ "*" → (entryMatches r (k, v) = true ↔ r.field k = some v)) := by
  refine ⟨⟨reg.records.filter (matchesFilter filter), ?_, ?_⟩, ?_, ?_⟩
  · simp [Registry.getRecords, hopen]
  · simp [List.mem_filter, matchesFilter, List.all_eq_true]
  · intro k
    unfold entryMatches
    cases h : r.field k <;> simp
  · intro k v hv
    unfold entryMatches
    cases h : r.field k with
    | none => simp
    | some w =>
      simp only [Bool.or_eq_true, beq_iff_eq, Option.some.injEq]
      constructor
      · rintro (h1 | h1)
        · exact absurd h1 hv
        · exact h1
      · intro h1
        exact Or.inr h1

theorem getRecords_returns_exactly_the_matches_witness :
    sampleRegistry.closed = false ∧
    ((∃ found, sampleRegistry.getRecords (some [("env", "*")]) = .ok found ∧
      (({ registrationId := some "R1", name := "svc", type := "http-endpoint", location := [],
          metadata := [("env", .str "prod")], status := .UP } : Record) ∈ found ↔
        ({ registrationId := some "R1", name := "svc", type := "http-endpoint", location := [],
           metadata := [("env", .str "prod")], status := .UP } : Record) ∈ sampleRegistry.records ∧
        ∀ e ∈ [("env", "*")],
          entryMatches { registrationId := some "R1", name := "svc", type := "http-endpoint",
                         location := [], metadata := [("env", .str "prod")], status := .UP } e
            = true)) ∧
    (∀ k, entryMatches { registrationId := some "R1", name := "svc", type := "http-endpoint",
                         location := [], metadata := [("env", .str "prod")], status := .UP }
            (k, "*") = true ↔
          ∃ v, Record.field { registrationId := some "R1", name := "svc",
                              type := "http-endpoint", location := [],
                              metadata := [("env", .str "prod")], status := .UP } k = some v) ∧
    (∀ k v, v ≠ "*" →
        (entryMatches { registrationId := some "R1", name := "svc", type := "http-endpoint",
                        location := [], metadata := [("env", .str "prod")], status := .UP }
            (k, v) = true ↔
          Record.field { registrationId := some "R1", name := "svc", type := "http-endpoint",
                         location := [], metadata := [("env", .str "prod")], status := .UP } k
            = some v))) :=
  ⟨rfl, getRecords_returns_exactly_the_matches sampleRegistry [("env", "*")] _ rfl⟩

end DiscoveryService
